import Mathlib

/-!
Verification of the Fleet Telemetry risk-scoring core
(`src/api/main.py` of `tagup-assignment-rithvik`).

The embedding models a stored telemetry reading as a record with the
exact fields the code reads, with the three float metrics as rationals.
Python `round(x, 2)` is round-half-to-even at two decimal places, which
`round2` models over the rationals.  `compute_risk` mirrors
`compute_risk` of `src/api/main.py` lines 43 to 94; `fetchLatest` models
the windowed retrieval of `get_latest_telemetry` (filter by asset,
order by `recorded_at` descending, take at most `limit` rows).
-/

/-- One telemetry row, as produced by the store and consumed by
`compute_risk`: the three metrics plus the non-metric fields `id`,
`asset_id`, `recorded_at`. -/
structure Reading where
  id : ℤ
  asset_id : String
  temperature_c : ℚ
  vibration_rms : ℚ
  pressure_psi : ℚ
  recorded_at : ℤ
deriving DecidableEq, Repr

/-- The per-metric averages reported in an assessment
(`averages` dict of `main.py` lines 89 to 93). -/
structure Averages where
  temperature_c : ℚ
  vibration_rms : ℚ
  pressure_psi : ℚ
deriving DecidableEq, Repr

/-- The risk assessment returned by `compute_risk`
(`main.py` lines 84 to 94). -/
structure RiskAssessment where
  risk_score : ℚ
  risk_points : ℕ
  risk_level : String
  window_used : ℕ
  averages : Averages
deriving DecidableEq, Repr

/-- Round a rational to the nearest integer, ties to even:
the rounding Python `round` performs. -/
def roundHalfEven (q : ℚ) : ℤ :=
  if q - ⌊q⌋ < 1 / 2 then ⌊q⌋
  else if 1 / 2 < q - ⌊q⌋ then ⌊q⌋ + 1
  else if ⌊q⌋ % 2 = 0 then ⌊q⌋ else ⌊q⌋ + 1

/-- Python `round(q, 2)`: round to two decimal places, ties to even. -/
def round2 (q : ℚ) : ℚ := (roundHalfEven (q * 100) : ℚ) / 100

/-- Mean temperature over the window
(`main.py` line 50: `sum(...) / len(readings)`). -/
def avgTemp (readings : List Reading) : ℚ :=
  (readings.map (fun r => r.temperature_c)).sum / readings.length

/-- Mean vibration over the window (`main.py` line 51). -/
def avgVib (readings : List Reading) : ℚ :=
  (readings.map (fun r => r.vibration_rms)).sum / readings.length

/-- Mean pressure over the window (`main.py` line 52). -/
def avgPressure (readings : List Reading) : ℚ :=
  (readings.map (fun r => r.pressure_psi)).sum / readings.length

/-- Temperature band (`main.py` lines 58 to 61):
`>95` gives 2 points, else `>85` gives 1, else 0. -/
def tempPoints (avg_temp : ℚ) : ℕ :=
  if avg_temp > 95 then 2
  else if avg_temp > 85 then 1
  else 0

/-- Vibration band (`main.py` lines 64 to 67):
`>3.5` gives 2 points, else `>2.5` gives 1, else 0. -/
def vibPoints (avg_vib : ℚ) : ℕ :=
  if avg_vib > 7 / 2 then 2
  else if avg_vib > 5 / 2 then 1
  else 0

/-- Pressure band (`main.py` lines 70 to 73):
`<30 or >60` gives 2 points, else `<35 or >55` gives 1, else 0. -/
def pressurePoints (avg_pressure : ℚ) : ℕ :=
  if avg_pressure < 30 ∨ avg_pressure > 60 then 2
  else if avg_pressure < 35 ∨ avg_pressure > 55 then 1
  else 0

/-- Risk level from accumulated points (`main.py` lines 77 to 82):
at most 2 is LOW, at most 4 is MEDIUM, else HIGH. -/
def riskLevelOf (risk_points : ℕ) : String :=
  if risk_points ≤ 2 then "LOW"
  else if risk_points ≤ 4 then "MEDIUM"
  else "HIGH"

/-- `compute_risk` of `main.py` lines 43 to 94: `None` on an empty
window; otherwise band the three unrounded means, sum the points,
normalise by `max_points = 6`, and report rounded averages. -/
def compute_risk (readings : List Reading) : Option RiskAssessment :=
  if readings.isEmpty then none
  else
    let avg_temp := avgTemp readings
    let avg_vib := avgVib readings
    let avg_pressure := avgPressure readings
    let risk_points :=
      tempPoints avg_temp + vibPoints avg_vib + pressurePoints avg_pressure
    let max_points : ℕ := 6
    let risk_score := round2 ((risk_points : ℚ) / (max_points : ℚ))
    some
      { risk_score := risk_score
        risk_points := risk_points
        risk_level := riskLevelOf risk_points
        window_used := readings.length
        averages :=
          { temperature_c := round2 avg_temp
            vibration_rms := round2 avg_vib
            pressure_psi := round2 avg_pressure } }

/-- Python division, which raises `ZeroDivisionError` on a zero
divisor; the checked embedding used to show `compute_risk` never
reaches that error. -/
def pyDiv (a b : ℚ) : Except String ℚ :=
  if b = 0 then Except.error "ZeroDivisionError" else Except.ok (a / b)

/-- `compute_risk` with every division checked as Python performs it:
the result is an error exactly when some division has a zero divisor. -/
def compute_riskE (readings : List Reading) :
    Except String (Option RiskAssessment) :=
  if readings.isEmpty then Except.ok none
  else do
    let avg_temp ←
      pyDiv (readings.map (fun r => r.temperature_c)).sum readings.length
    let avg_vib ←
      pyDiv (readings.map (fun r => r.vibration_rms)).sum readings.length
    let avg_pressure ←
      pyDiv (readings.map (fun r => r.pressure_psi)).sum readings.length
    let risk_points :=
      tempPoints avg_temp + vibPoints avg_vib + pressurePoints avg_pressure
    let max_points : ℕ := 6
    let risk_score := round2 ((risk_points : ℚ) / (max_points : ℚ))
    Except.ok (some
      { risk_score := risk_score
        risk_points := risk_points
        risk_level := riskLevelOf risk_points
        window_used := readings.length
        averages :=
          { temperature_c := round2 avg_temp
            vibration_rms := round2 avg_vib
            pressure_psi := round2 avg_pressure } })

/-- The windowed retrieval of `get_latest_telemetry`
(`main.py` lines 169 to 180): rows of the asset, ordered by
`recorded_at` descending, at most `limit` of them. -/
def fetchLatest (table : List Reading) (asset_id : String) (limit : ℕ) :
    List Reading :=
  (((table.filter (fun r => r.asset_id = asset_id)).mergeSort
      (fun a b => decide (b.recorded_at ≤ a.recorded_at))).take limit)

/-- The LOW scenario of the spec: temperatures 90, 92, 94 with calm
vibration and nominal pressure. -/
def lowReadings : List Reading :=
  [{ id := 1, asset_id := "a", temperature_c := 90, vibration_rms := 1,
     pressure_psi := 45, recorded_at := 0 },
   { id := 2, asset_id := "a", temperature_c := 92, vibration_rms := 1,
     pressure_psi := 45, recorded_at := 1 },
   { id := 3, asset_id := "a", temperature_c := 94, vibration_rms := 1,
     pressure_psi := 45, recorded_at := 2 }]

/-- The assessment the LOW scenario produces. -/
def lowAssessment : RiskAssessment :=
  { risk_score := 17 / 100, risk_points := 1, risk_level := "LOW",
    window_used := 3,
    averages := { temperature_c := 92, vibration_rms := 1, pressure_psi := 45 } }

lemma compute_risk_lowReadings : compute_risk lowReadings = some lowAssessment := by
  simp only [lowReadings, lowAssessment, compute_risk, avgTemp, avgVib,
    avgPressure, tempPoints, vibPoints, pressurePoints, riskLevelOf, round2,
    roundHalfEven]
  norm_num

/-- The HIGH scenario of the spec: every metric in its 2-point band. -/
def highReadings : List Reading :=
  [{ id := 1, asset_id := "a", temperature_c := 100, vibration_rms := 4,
     pressure_psi := 65, recorded_at := 0 }]

/-- The assessment the HIGH scenario produces. -/
def highAssessment : RiskAssessment :=
  { risk_score := 1, risk_points := 6, risk_level := "HIGH",
    window_used := 1,
    averages := { temperature_c := 100, vibration_rms := 4, pressure_psi := 65 } }

lemma compute_risk_highReadings : compute_risk highReadings = some highAssessment := by
  simp only [highReadings, highAssessment, compute_risk, avgTemp, avgVib,
    avgPressure, tempPoints, vibPoints, pressurePoints, riskLevelOf, round2,
    roundHalfEven]
  norm_num

/-- A single reading whose temperature sits exactly on the 95 boundary. -/
def boundaryReadings : List Reading :=
  [{ id := 1, asset_id := "a", temperature_c := 95, vibration_rms := 1,
     pressure_psi := 45, recorded_at := 0 }]

/-- The assessment the boundary scenario produces. -/
def boundaryAssessment : RiskAssessment :=
  { risk_score := 17 / 100, risk_points := 1, risk_level := "LOW",
    window_used := 1,
    averages := { temperature_c := 95, vibration_rms := 1, pressure_psi := 45 } }

lemma compute_risk_boundaryReadings :
    compute_risk boundaryReadings = some boundaryAssessment := by
  simp only [boundaryReadings, boundaryAssessment, compute_risk, avgTemp, avgVib,
    avgPressure, tempPoints, vibPoints, pressurePoints, riskLevelOf, round2,
    roundHalfEven]
  norm_num

/-! ## Shape of a non-empty evaluation -/

/-- Sum of the three band contributions for a window. -/
def bandSum (rs : List Reading) : ℕ :=
  tempPoints (avgTemp rs) + vibPoints (avgVib rs) + pressurePoints (avgPressure rs)

lemma tempPoints_le_two (t : ℚ) : tempPoints t ≤ 2 := by
  unfold tempPoints; split_ifs <;> omega

lemma vibPoints_le_two (v : ℚ) : vibPoints v ≤ 2 := by
  unfold vibPoints; split_ifs <;> omega

lemma pressurePoints_le_two (p : ℚ) : pressurePoints p ≤ 2 := by
  unfold pressurePoints; split_ifs <;> omega

lemma bandSum_le_six (rs : List Reading) : bandSum rs ≤ 6 := by
  have h1 := tempPoints_le_two (avgTemp rs)
  have h2 := vibPoints_le_two (avgVib rs)
  have h3 := pressurePoints_le_two (avgPressure rs)
  unfold bandSum; omega

lemma compute_risk_of_ne_nil (rs : List Reading) (h : rs ≠ []) :
    compute_risk rs = some
      { risk_score := round2 ((bandSum rs : ℚ) / 6)
        risk_points := bandSum rs
        risk_level := riskLevelOf (bandSum rs)
        window_used := rs.length
        averages :=
          { temperature_c := round2 (avgTemp rs)
            vibration_rms := round2 (avgVib rs)
            pressure_psi := round2 (avgPressure rs) } } := by
  unfold compute_risk bandSum
  rw [if_neg (by simpa [List.isEmpty_iff] using h)]
  norm_num

lemma compute_risk_shape (rs : List Reading) (a : RiskAssessment)
    (h : compute_risk rs = some a) :
    rs ≠ [] ∧ a = { risk_score := round2 ((bandSum rs : ℚ) / 6)
                    risk_points := bandSum rs
                    risk_level := riskLevelOf (bandSum rs)
                    window_used := rs.length
                    averages :=
                      { temperature_c := round2 (avgTemp rs)
                        vibration_rms := round2 (avgVib rs)
                        pressure_psi := round2 (avgPressure rs) } } := by
  have hne : rs ≠ [] := by
    intro hnil; rw [hnil] at h; simp [compute_risk] at h
  refine ⟨hne, ?_⟩
  have := compute_risk_of_ne_nil rs hne
  rw [this] at h
  exact (Option.some_injective _ h).symm

/-! ## C1 and C2 -/

/-- C1: for every non-empty window, `compute_risk` yields a
`risk_points` between 0 and 6, and `risk_level` realises the strict
partition: LOW exactly when the points are at most 2, MEDIUM exactly
when they are 3 or 4, HIGH exactly when they are at least 5. -/
theorem compute_risk_points_range_and_level (rs : List Reading) (a : RiskAssessment)
    (h : compute_risk rs = some a) :
    a.risk_points ≤ 6 ∧
    (a.risk_level = "LOW" ↔ a.risk_points ≤ 2) ∧
    (a.risk_level = "MEDIUM" ↔ 3 ≤ a.risk_points ∧ a.risk_points ≤ 4) ∧
    (a.risk_level = "HIGH" ↔ 5 ≤ a.risk_points) := by
  obtain ⟨-, rfl⟩ := compute_risk_shape rs a h
  refine ⟨bandSum_le_six rs, ?_, ?_, ?_⟩ <;>
    · show riskLevelOf (bandSum rs) = _ ↔ _
      unfold riskLevelOf
      split_ifs <;> simp <;> omega

/-- C2: `compute_risk` returns no assessment exactly on the empty
window: the empty window maps to `none` (so never to a LOW assessment),
and every non-empty window maps to `some` assessment. -/
theorem compute_risk_none_iff_empty (rs : List Reading) :
    compute_risk rs = none ↔ rs = [] := by
  constructor
  · intro h
    by_contra hne
    rw [compute_risk_of_ne_nil rs hne] at h
    exact Option.noConfusion h
  · intro h; rw [h]; simp [compute_risk]

/-- Witness for C1: the LOW scenario instantiates the range and
partition facts at a concrete window. -/
theorem compute_risk_points_range_and_level_witness :
    lowAssessment.risk_points ≤ 6 ∧
    (lowAssessment.risk_level = "LOW" ↔ lowAssessment.risk_points ≤ 2) ∧
    (lowAssessment.risk_level = "MEDIUM" ↔
      3 ≤ lowAssessment.risk_points ∧ lowAssessment.risk_points ≤ 4) ∧
    (lowAssessment.risk_level = "HIGH" ↔ 5 ≤ lowAssessment.risk_points) :=
  compute_risk_points_range_and_level lowReadings lowAssessment
    compute_risk_lowReadings

/-! ## C3 -/

/-- C3: every assessment's `risk_score` is `round(risk_points / 6, 2)`,
and it always lands in the seven-value set
0, 0.17, 0.33, 0.5, 0.67, 0.83, 1. -/
theorem risk_score_round_of_points (rs : List Reading) (a : RiskAssessment)
    (h : compute_risk rs = some a) :
    a.risk_score = round2 ((a.risk_points : ℚ) / 6) ∧
    a.risk_score ∈ [(0 : ℚ), 17 / 100, 33 / 100, 1 / 2, 67 / 100, 83 / 100, 1] := by
  obtain ⟨-, rfl⟩ := compute_risk_shape rs a h
  refine ⟨rfl, ?_⟩
  have hle := bandSum_le_six rs
  show round2 ((bandSum rs : ℚ) / 6) ∈ _
  set p := bandSum rs with hp
  clear_value p
  interval_cases p <;>
    norm_num [round2, roundHalfEven]

/-- Witness for C3 at the LOW scenario. -/
theorem risk_score_round_of_points_witness :
    lowAssessment.risk_score = round2 ((lowAssessment.risk_points : ℚ) / 6) ∧
    lowAssessment.risk_score ∈
      [(0 : ℚ), 17 / 100, 33 / 100, 1 / 2, 67 / 100, 83 / 100, 1] :=
  risk_score_round_of_points lowReadings lowAssessment compute_risk_lowReadings

/-! ## C4 -/

/-- C4: the temperature bands compare strictly: a mean strictly above
95 contributes 2 points, a mean of exactly 95 contributes 1, a mean in
(85, 95] contributes 1, and a mean of exactly 85 contributes 0 (the
contribution is the first summand of `risk_points`). -/
theorem temperature_thresholds_strict (rs : List Reading) (a : RiskAssessment)
    (h : compute_risk rs = some a) :
    (95 < avgTemp rs →
      a.risk_points = 2 + vibPoints (avgVib rs) + pressurePoints (avgPressure rs)) ∧
    (avgTemp rs = 95 →
      a.risk_points = 1 + vibPoints (avgVib rs) + pressurePoints (avgPressure rs)) ∧
    (85 < avgTemp rs → avgTemp rs ≤ 95 →
      a.risk_points = 1 + vibPoints (avgVib rs) + pressurePoints (avgPressure rs)) ∧
    (avgTemp rs = 85 →
      a.risk_points = 0 + vibPoints (avgVib rs) + pressurePoints (avgPressure rs)) := by
  obtain ⟨-, rfl⟩ := compute_risk_shape rs a h
  refine ⟨fun h1 => ?_, fun h1 => ?_, fun h1 h2 => ?_, fun h1 => ?_⟩
  · show bandSum rs = _
    unfold bandSum tempPoints
    rw [if_pos h1]
  · show bandSum rs = _
    unfold bandSum tempPoints
    rw [h1]; norm_num
  · show bandSum rs = _
    unfold bandSum tempPoints
    rw [if_neg (not_lt.mpr h2), if_pos h1]
  · show bandSum rs = _
    unfold bandSum tempPoints
    rw [h1]; norm_num

/-- Witness for C4: the boundary scenario has mean temperature exactly
95 and earns exactly 1 temperature point. -/
theorem temperature_thresholds_strict_witness :
    avgTemp boundaryReadings = 95 ∧
    boundaryAssessment.risk_points =
      1 + vibPoints (avgVib boundaryReadings) +
        pressurePoints (avgPressure boundaryReadings) :=
  ⟨by norm_num [avgTemp, boundaryReadings],
   (temperature_thresholds_strict boundaryReadings boundaryAssessment
      compute_risk_boundaryReadings).2.1
     (by norm_num [avgTemp, boundaryReadings])⟩

/-! ## C5 -/

/-- C5: the pressure band is bidirectional and non-cumulative: a mean
below 30 or above 60 contributes exactly 2 points, a mean in the outer
1-point region (below 35 or above 55 but not in the 2-point band)
contributes exactly 1, a mean in [35, 55] contributes 0, and the
contribution never exceeds 2 (the bands never stack). -/
theorem pressure_band_bidirectional (rs : List Reading) (a : RiskAssessment)
    (h : compute_risk rs = some a) :
    (avgPressure rs < 30 ∨ 60 < avgPressure rs →
      a.risk_points = tempPoints (avgTemp rs) + vibPoints (avgVib rs) + 2) ∧
    ((avgPressure rs < 35 ∨ 55 < avgPressure rs) →
      ¬(avgPressure rs < 30 ∨ 60 < avgPressure rs) →
      a.risk_points = tempPoints (avgTemp rs) + vibPoints (avgVib rs) + 1) ∧
    (35 ≤ avgPressure rs → avgPressure rs ≤ 55 →
      a.risk_points = tempPoints (avgTemp rs) + vibPoints (avgVib rs) + 0) ∧
    pressurePoints (avgPressure rs) ≤ 2 := by
  obtain ⟨-, rfl⟩ := compute_risk_shape rs a h
  refine ⟨fun h1 => ?_, fun h1 h2 => ?_, fun h1 h2 => ?_,
    pressurePoints_le_two (avgPressure rs)⟩
  · show bandSum rs = _
    unfold bandSum pressurePoints
    rw [if_pos h1]
  · show bandSum rs = _
    unfold bandSum pressurePoints
    rw [if_neg h2, if_pos h1]
  · show bandSum rs = _
    unfold bandSum pressurePoints
    have hn1 : ¬(avgPressure rs < 30 ∨ avgPressure rs > 60) := by
      push_neg
      exact ⟨le_trans (by norm_num) h1, le_trans h2 (by norm_num)⟩
    have hn2 : ¬(avgPressure rs < 35 ∨ avgPressure rs > 55) := by
      push_neg
      exact ⟨h1, h2⟩
    rw [if_neg hn1, if_neg hn2]

/-- Witness for C5: the HIGH scenario has mean pressure 65, in the
2-point band on the high side. -/
theorem pressure_band_bidirectional_witness :
    highAssessment.risk_points =
      tempPoints (avgTemp highReadings) + vibPoints (avgVib highReadings) + 2 :=
  (pressure_band_bidirectional highReadings highAssessment
      compute_risk_highReadings).1
    (Or.inr (by norm_num [avgPressure, highReadings]))

/-! ## C6 -/

/-- C6: the band comparisons are made against the unrounded means while
the reported averages are the means rounded to 2 decimal places, and
the rounded values never feed back: the last three conjuncts exhibit a
mean (95.004) whose unrounded value bands to 2 temperature points
although its reported rounding (95.0) would band to 1. -/
theorem thresholds_use_unrounded_means (rs : List Reading) (a : RiskAssessment)
    (h : compute_risk rs = some a) :
    a.risk_points =
      tempPoints (avgTemp rs) + vibPoints (avgVib rs) +
        pressurePoints (avgPressure rs) ∧
    a.averages =
      { temperature_c := round2 (avgTemp rs)
        vibration_rms := round2 (avgVib rs)
        pressure_psi := round2 (avgPressure rs) } ∧
    tempPoints (23751 / 250) = 2 ∧
    round2 (23751 / 250) = 95 ∧
    tempPoints (round2 (23751 / 250)) = 1 := by
  obtain ⟨-, rfl⟩ := compute_risk_shape rs a h
  refine ⟨rfl, rfl, by norm_num [tempPoints], ?_, ?_⟩
  · norm_num [round2, roundHalfEven]
  · norm_num [round2, roundHalfEven, tempPoints]

/-- Witness for C6 at the LOW scenario. -/
theorem thresholds_use_unrounded_means_witness :
    lowAssessment.risk_points =
      tempPoints (avgTemp lowReadings) + vibPoints (avgVib lowReadings) +
        pressurePoints (avgPressure lowReadings) ∧
    lowAssessment.averages =
      { temperature_c := round2 (avgTemp lowReadings)
        vibration_rms := round2 (avgVib lowReadings)
        pressure_psi := round2 (avgPressure lowReadings) } ∧
    tempPoints (23751 / 250) = 2 ∧
    round2 (23751 / 250) = 95 ∧
    tempPoints (round2 (23751 / 250)) = 1 :=
  thresholds_use_unrounded_means lowReadings lowAssessment
    compute_risk_lowReadings

/-! ## C7 -/

/-- C7: `compute_risk` is order-insensitive: permuting the window
leaves the whole assessment unchanged. -/
theorem compute_risk_perm (rs₁ rs₂ : List Reading) (h : rs₁.Perm rs₂) :
    compute_risk rs₁ = compute_risk rs₂ := by
  have hlen : rs₁.length = rs₂.length := h.length_eq
  have ht : avgTemp rs₁ = avgTemp rs₂ := by
    unfold avgTemp
    rw [(h.map (fun r => r.temperature_c)).sum_eq, hlen]
  have hv : avgVib rs₁ = avgVib rs₂ := by
    unfold avgVib
    rw [(h.map (fun r => r.vibration_rms)).sum_eq, hlen]
  have hp : avgPressure rs₁ = avgPressure rs₂ := by
    unfold avgPressure
    rw [(h.map (fun r => r.pressure_psi)).sum_eq, hlen]
  rcases eq_or_ne rs₁ [] with hnil | hne
  · subst hnil
    rw [← h.nil_eq]
  · have hne₂ : rs₂ ≠ [] := by
      intro hnil
      rw [hnil] at h
      exact hne h.eq_nil
    have hbs : bandSum rs₁ = bandSum rs₂ := by
      unfold bandSum
      rw [ht, hv, hp]
    rw [compute_risk_of_ne_nil rs₁ hne, compute_risk_of_ne_nil rs₂ hne₂,
      hbs, ht, hv, hp, hlen]

/-- First reading used in the permutation and noninterference scenarios. -/
def readingA : Reading :=
  { id := 1, asset_id := "a", temperature_c := 90, vibration_rms := 1,
    pressure_psi := 45, recorded_at := 0 }

/-- Second reading used in the permutation scenario. -/
def readingB : Reading :=
  { id := 2, asset_id := "a", temperature_c := 92, vibration_rms := 1,
    pressure_psi := 45, recorded_at := 1 }

/-- Witness for C7: swapping two concrete readings leaves the
assessment unchanged. -/
theorem compute_risk_perm_witness :
    compute_risk [readingB, readingA] = compute_risk [readingA, readingB] :=
  compute_risk_perm [readingB, readingA] [readingA, readingB]
    (List.Perm.swap readingA readingB [])

/-! ## C8 -/

/-- C8: `window_used` always counts the readings actually supplied,
and the windowed fetch returns the lesser of the requested limit and
the number of rows the asset actually has. -/
theorem window_used_counts_supplied :
    (∀ (rs : List Reading) (a : RiskAssessment),
      compute_risk rs = some a → a.window_used = rs.length) ∧
    (∀ (table : List Reading) (aid : String) (limit : ℕ),
      (fetchLatest table aid limit).length =
        min limit (table.filter (fun r => r.asset_id = aid)).length) := by
  constructor
  · intro rs a h
    obtain ⟨-, rfl⟩ := compute_risk_shape rs a h
    rfl
  · intro table aid limit
    unfold fetchLatest
    rw [List.length_take, List.length_mergeSort]

/-- Witness for C8: a store holding two rows for the asset, fetched
with limit 5, yields exactly two readings and `window_used = 2`. -/
theorem window_used_counts_supplied_witness :
    (fetchLatest [readingA, readingB] "a" 5).length = 2 ∧
    (compute_risk [readingA, readingB]).map (fun a => a.window_used) = some 2 := by
  constructor
  · rw [window_used_counts_supplied.2 [readingA, readingB] "a" 5]
    simp [readingA, readingB]
  · obtain ⟨a, ha⟩ : ∃ a, compute_risk [readingA, readingB] = some a :=
      ⟨_, compute_risk_of_ne_nil [readingA, readingB] (by simp)⟩
    rw [ha, Option.map_some', window_used_counts_supplied.1 _ _ ha]
    rfl

/-! ## C9 -/

/-- C9: `compute_risk` is total and error-free: the checked embedding,
in which every division can raise `ZeroDivisionError` exactly as in
Python, always returns `ok` of the unchecked result — the guard on the
empty window makes every divisor nonzero. -/
theorem compute_riskE_no_error (rs : List Reading) :
    compute_riskE rs = Except.ok (compute_risk rs) := by
  cases rs with
  | nil => rfl
  | cons r rest =>
    have hpos : (0 : ℚ) < ((r :: rest).length : ℚ) := by
      exact_mod_cast Nat.succ_pos rest.length
    simp only [compute_riskE, compute_risk, avgTemp, avgVib, avgPressure, pyDiv,
      List.isEmpty_cons, Bool.false_eq_true, if_false, if_neg hpos.ne',
      bind, Except.instMonad, Except.bind]

/-! ## C10 -/

/-- Projection of a reading onto the three metric fields: the only data
`compute_risk` reads from a row. -/
def metricsOf (r : Reading) : ℚ × ℚ × ℚ :=
  (r.temperature_c, r.vibration_rms, r.pressure_psi)

/-- C10: noninterference of the non-metric fields: two windows of equal
length that agree pointwise on the three metrics (but may differ in
`id`, `asset_id`, `recorded_at`) are assessed identically. -/
theorem compute_risk_noninterference (rs₁ rs₂ : List Reading)
    (h : rs₁.map metricsOf = rs₂.map metricsOf) :
    compute_risk rs₁ = compute_risk rs₂ := by
  have hlen : rs₁.length = rs₂.length := by
    have := congrArg List.length h
    simpa using this
  have ht : rs₁.map (fun r => r.temperature_c) =
      rs₂.map (fun r => r.temperature_c) := by
    have := congrArg (List.map (fun m : ℚ × ℚ × ℚ => m.1)) h
    simpa [List.map_map, metricsOf, Function.comp] using this
  have hv : rs₁.map (fun r => r.vibration_rms) =
      rs₂.map (fun r => r.vibration_rms) := by
    have := congrArg (List.map (fun m : ℚ × ℚ × ℚ => m.2.1)) h
    simpa [List.map_map, metricsOf, Function.comp] using this
  have hw : rs₁.map (fun r => r.pressure_psi) =
      rs₂.map (fun r => r.pressure_psi) := by
    have := congrArg (List.map (fun m : ℚ × ℚ × ℚ => m.2.2)) h
    simpa [List.map_map, metricsOf, Function.comp] using this
  have hT : avgTemp rs₁ = avgTemp rs₂ := by
    unfold avgTemp; rw [ht, hlen]
  have hV : avgVib rs₁ = avgVib rs₂ := by
    unfold avgVib; rw [hv, hlen]
  have hP : avgPressure rs₁ = avgPressure rs₂ := by
    unfold avgPressure; rw [hw, hlen]
  rcases eq_or_ne rs₁ [] with hnil | hne
  · subst hnil
    have : rs₂ = [] := by simpa using h.symm
    rw [this]
  · have hne₂ : rs₂ ≠ [] := by
      intro hnil
      rw [hnil] at h
      simp only [List.map_nil, List.map_eq_nil_iff] at h
      exact hne h
    have hbs : bandSum rs₁ = bandSum rs₂ := by
      unfold bandSum
      rw [hT, hV, hP]
    rw [compute_risk_of_ne_nil rs₁ hne, compute_risk_of_ne_nil rs₂ hne₂,
      hbs, hT, hV, hP, hlen]

/-- A reading with the same metrics as `readingA` but different `id`,
`asset_id` and `recorded_at`. -/
def readingC : Reading :=
  { id := 99, asset_id := "b", temperature_c := 90, vibration_rms := 1,
    pressure_psi := 45, recorded_at := 7 }

/-- Witness for C10: changing only the non-metric fields of a window
leaves the assessment unchanged. -/
theorem compute_risk_noninterference_witness :
    compute_risk [readingA] = compute_risk [readingC] :=
  compute_risk_noninterference [readingA] [readingC] rfl

/-- Witness for C2: the empty window yields `none`; the LOW-scenario
window does not. -/
theorem compute_risk_none_iff_empty_witness :
    compute_risk [] = none ∧ compute_risk lowReadings ≠ none := by
  refine ⟨(compute_risk_none_iff_empty []).mpr rfl, fun h => ?_⟩
  have : lowReadings = [] := (compute_risk_none_iff_empty lowReadings).mp h
  simp [lowReadings] at this

/-- Witness for C9: the checked evaluator succeeds on the LOW scenario. -/
theorem compute_riskE_no_error_witness :
    compute_riskE lowReadings = Except.ok (compute_risk lowReadings) :=
  compute_riskE_no_error lowReadings
